import Mathlib

set_option maxRecDepth 4000

/- Shallow embedding of the cz repository (src/src/App.tsx and the AI
recommendation service in src/unnamed/part_000).  JavaScript strings are
modelled as Lean `String` (lists of characters); the character classes of
the regexes used by the source are modelled over their ASCII fragment. -/

/- Character class of the JavaScript regex `\s` (ASCII fragment: space, tab,
newline, carriage return, vertical tab, form feed). -/
def isJsWs (c : Char) : Bool :=
  c == ' ' || c == '\t' || c == '\n' || c == '\r' || c == '\x0b' || c == '\x0c'

/- Character class `[a-z0-9]` used by the source after lower-casing. -/
def isLowerAlnum (c : Char) : Bool :=
  (decide ('a' ≤ c) && decide (c ≤ 'z')) || (decide ('0' ≤ c) && decide (c ≤ '9'))

/- JavaScript `String.prototype.toLowerCase` (ASCII fragment). -/
def strToLower (s : String) : String :=
  String.mk (s.data.map Char.toLower)

/- Removal of all characters failing a predicate, as done by the source's
`replace(/[^...]/g, '')` calls. -/
def strFilter (p : Char → Bool) (s : String) : String :=
  String.mk (s.data.filter p)

/- JavaScript `String.prototype.trim` (ASCII whitespace fragment). -/
def jsTrim (s : String) : String :=
  String.mk (((s.data.dropWhile isJsWs).reverse.dropWhile isJsWs).reverse)

/- JavaScript falsiness test `!s.trim()` used by the source: true iff the
string is empty or whitespace-only. -/
def isBlank (s : String) : Bool :=
  jsTrim s == ""

/- Decides whether the first list is a prefix of the second. -/
def headMatches : List Char → List Char → Bool
  | [], _ => true
  | _ :: _, [] => false
  | a :: as, b :: bs => a == b && headMatches as bs

/- Decides whether `needle` occurs as a contiguous run inside the second list. -/
def occursIn (needle : List Char) : List Char → Bool
  | [] => headMatches needle []
  | c :: t => headMatches needle (c :: t) || occursIn needle t

/- JavaScript `hay.includes(sub)`. -/
def strIncludes (hay sub : String) : Bool :=
  occursIn sub.data hay.data

/- Decides whether the first list is a suffix of the second. -/
def endsWithL (suf l : List Char) : Bool :=
  headMatches suf.reverse l.reverse

/- The legal-entity suffix alternatives of the regex
`/(inc|corp|corporation|llc|ltd|limited|company|co)$/g` in source order. -/
def legalSuffixes : List String :=
  ["inc", "corp", "corporation", "llc", "ltd", "limited", "company", "co"]

/- One application of the suffix-stripping regex: the regex engine removes the
leftmost (hence longest) alternative that ends the string; no two alternatives
can end the same string, so picking the longest matching one is exact. -/
def stripLegalSuffix (s : String) : String :=
  let hits := legalSuffixes.filter (fun suf => endsWithL suf.data s.data)
  match hits.foldl
      (fun best suf =>
        match best with
        | none => some suf
        | some b => if b.length < suf.length then some suf else some b)
      none with
  | none => s
  | some suf => String.mk (s.data.take (s.data.length - suf.length))

/- App.tsx lines 12-15: lower-case, drop `[^a-z0-9\s]`, drop `\s+`, strip one
legal-entity suffix. -/
def cleanCompanyName (companyName : String) : String :=
  stripLegalSuffix
    (strFilter (fun c => !(isJsWs c))
      (strFilter (fun c => isLowerAlnum c || isJsWs c) (strToLower companyName)))

/- The regex `/^https?:\/\//g`: greedy scheme match at the start. -/
def stripUrlScheme (l : List Char) : List Char :=
  if headMatches "https://".data l then l.drop 8
  else if headMatches "http://".data l then l.drop 7
  else l

/- App.tsx lines 17-21: lower-case, drop a leading scheme, drop a leading
`www.`, keep the first dot-separated label, drop `[^a-z0-9]`. -/
def cleanUrl (websiteUrl : String) : String :=
  let l0 := (strToLower websiteUrl).data
  let l1 := stripUrlScheme l0
  let l2 := if headMatches "www.".data l1 then l1.drop 4 else l1
  let l3 := l2.takeWhile (fun c => !(c == '.'))
  String.mk (l3.filter isLowerAlnum)

/- Worker for `jsSplitWs`: `inRun` records whether the scanner is inside a
whitespace run, `acc` the characters of the current piece (reversed). -/
def splitWsGo (inRun : Bool) (acc : List Char) : List Char → List String
  | [] => [String.mk acc.reverse]
  | c :: r =>
    if isJsWs c then
      if inRun then splitWsGo true [] r
      else String.mk acc.reverse :: splitWsGo true [] r
    else splitWsGo false (c :: acc) r

/- JavaScript `s.split(/\s+/)`: pieces between maximal whitespace runs,
including an empty piece at a boundary whitespace run. -/
def jsSplitWs (s : String) : List String :=
  splitWsGo false [] s.data

/- App.tsx lines 49-52: first characters of the non-empty words, joined. -/
def acronymOf (companyName : String) : String :=
  String.mk
    ((((jsSplitWs (strToLower companyName)).filter (fun w => 0 < w.length)).map
      (fun w => w.data.take 1)).flatten)

/- App.tsx lines 6-59, `validateCompanyUrlMatch`. -/
def validateCompanyUrlMatch (companyName websiteUrl : String) : Bool :=
  if isBlank companyName || isBlank websiteUrl then
    true
  else
    let cn := cleanCompanyName companyName
    let cu := cleanUrl websiteUrl
    if cn == cu then true
    else if (decide (3 ≤ cn.length) && decide (3 ≤ cu.length)) &&
        (strIncludes cn cu || strIncludes cu cn) then true
    else
      let companyWords := jsSplitWs (strToLower companyName)
      if companyWords.any (fun word =>
          let cleanWord := strFilter isLowerAlnum word
          decide (3 ≤ cleanWord.length) && strIncludes cu cleanWord) then true
      else if 1 < companyWords.length then
        let acronym := acronymOf companyName
        decide (2 ≤ acronym.length) && strIncludes cu acronym
      else false

/- Modelled from the spec: the four match conditions as worded by the claim,
with a word of the company name taken to be a non-empty whitespace-separated
token; to be compared with `validateCompanyUrlMatch`. -/
def matchesSpec (companyName websiteUrl : String) : Prop :=
  cleanCompanyName companyName = cleanUrl websiteUrl
  ∨ (3 ≤ (cleanCompanyName companyName).length ∧ 3 ≤ (cleanUrl websiteUrl).length ∧
      (strIncludes (cleanCompanyName companyName) (cleanUrl websiteUrl) = true ∨
        strIncludes (cleanUrl websiteUrl) (cleanCompanyName companyName) = true))
  ∨ (∃ word ∈ jsSplitWs (strToLower companyName),
      3 ≤ (strFilter isLowerAlnum word).length ∧
        strIncludes (cleanUrl websiteUrl) (strFilter isLowerAlnum word) = true)
  ∨ (1 < ((jsSplitWs (strToLower companyName)).filter (fun w => 0 < w.length)).length ∧
      2 ≤ (acronymOf companyName).length ∧
        strIncludes (cleanUrl websiteUrl) (acronymOf companyName) = true)

/- Data model of part_000 lines 5-27. -/

structure CompanyContext where
  companyName : String
  websiteUrl : String
  email : String
  ppa : Bool
  genAI : Bool
  cloudCostConcerns : Bool
deriving DecidableEq

/- CompanyIntelligence from webResearch; `stockPerformance` models the
optional record through its `summary` field, the only one the core reads. -/
structure CompanyIntelligence where
  companyName : String
  industry : String
  businessModel : String
  techStack : List String
  recentNews : List String
  cloudUsageIndicators : List String
  stockPerformance : Option String
deriving DecidableEq

structure UnitMetric where
  title : String
  description : String
deriving DecidableEq

structure ConditionalInsights where
  ppa : Option (List String)
  genAI : Option (List String)
  cloudCostConcerns : Option (List String)
deriving DecidableEq

structure AIRecommendation where
  unitMetrics : List UnitMetric
  conversationStarters : List String
  conditionalInsights : ConditionalInsights
deriving DecidableEq

/- The value produced by `JSON.parse` and cast unchecked to AIRecommendation
(part_000 line 208): the two list fields may be absent at runtime, which the
unchecked cast cannot exclude, so they are modelled as optional here. -/
structure ParsedRecommendation where
  unitMetrics : Option (List UnitMetric)
  conversationStarters : Option (List String)
  conditionalInsights : ConditionalInsights
deriving DecidableEq

/- Embeds a fully-built recommendation into the parsed-value representation. -/
def toParsed (r : AIRecommendation) : ParsedRecommendation :=
  { unitMetrics := some r.unitMetrics
    conversationStarters := some r.conversationStarters
    conditionalInsights := r.conditionalInsights }

/- Part_000 line 215, the step-9 structural check
`!recommendations.unitMetrics || !recommendations.conversationStarters`: an
absent field is falsy and any present array (even empty) is truthy, so the
check passes exactly when both fields are present. -/
def hasRequiredStructure (r : ParsedRecommendation) : Bool :=
  r.unitMetrics.isSome && r.conversationStarters.isSome

/- Part_000 lines 227-287, `getFallbackRecommendations`.  The source builds
`baseRecommendations` with an empty `conditionalInsights` object and then
conditionally assigns the three keys; that is rendered functionally by the
three `if` expressions. -/
def getFallbackRecommendations (context : CompanyContext) : AIRecommendation :=
  { unitMetrics :=
      [ { title := "Cost per " ++ context.companyName ++ " customer transaction"
          description := "Monitor the total infrastructure cost for each customer transaction or core business action at " ++ context.companyName ++ ". This metric directly connects cloud spending to revenue-generating activities, helping you understand the true cost of serving customers and identify optimization opportunities that improve profit margins. It\x27s essential for maintaining healthy unit economics as you scale." }
      , { title := "Cost per " ++ context.companyName ++ " service delivery"
          description := "Track infrastructure costs associated with delivering your core product or service to customers. For " ++ context.companyName ++ ", this means understanding how much it costs to fulfill each customer request, process each order, or deliver each unit of value. This business-focused metric helps align technical spending with customer satisfaction and operational efficiency." }
      , { title := "Cost per " ++ context.companyName ++ " customer acquisition"
          description := "Measure the infrastructure costs associated with onboarding and serving new customers during their first month at " ++ context.companyName ++ ". This metric helps you understand the true cost of growth and ensures that customer acquisition costs remain sustainable. It\x27s particularly valuable for identifying whether your platform can profitably scale with new customer growth." }
      , { title := "Cost per " ++ context.companyName ++ " business outcome"
          description := "Track infrastructure costs per key business result - whether that\x27s completed orders, successful deliveries, processed payments, or other core value-creating activities for " ++ context.companyName ++ ". This metric ensures that technology spending directly supports business objectives and helps identify which operational processes are most cost-effective to scale." }
      , { title := "Cost per " ++ context.companyName ++ " customer success milestone"
          description := "Monitor infrastructure costs for key customer journey milestones - from initial signup through product adoption and ongoing engagement. For " ++ context.companyName ++ ", this helps identify which stages of the customer lifecycle are most expensive to support and where optimization efforts will have the biggest impact on customer lifetime value and retention." } ]
    conversationStarters :=
      [ "How does " ++ context.companyName ++ " ensure infrastructure costs scale proportionally with user growth and product value? Many companies find that as they scale, their cloud costs grow faster than revenue, often due to inefficient resource allocation or lack of usage-based monitoring. Understanding this relationship early helps prevent costly surprises and enables data-driven scaling decisions that align with your business model."
      , "Are your development teams at " ++ context.companyName ++ " empowered with cost visibility to make efficient architecture decisions? When engineers can see the cost impact of their choices in real-time, they naturally optimize for efficiency without sacrificing performance. This visibility often leads to 20-30% cost reductions through better resource selection and usage patterns, especially important as your team grows."
      , "Would unit cost metrics help " ++ context.companyName ++ " align engineering priorities with business profitability goals? By connecting infrastructure spending to business outcomes like customer acquisition cost or revenue per user, teams can make more strategic decisions about where to invest their optimization efforts and which features truly drive value for your specific market and customer base." ]
    conditionalInsights :=
      { ppa :=
          if context.ppa then
            some
              [ "How might " ++ context.companyName ++ " leverage committed use discounts and reserved instances to reduce baseline infrastructure costs? Understanding your predictable workload patterns can unlock significant savings through AWS Enterprise Discount Programs or similar commitment-based pricing models. This is especially valuable for companies with steady growth trajectories."
              , "What\x27s " ++ context.companyName ++ "\x27s strategy for balancing flexibility with cost savings in your private pricing agreements? While PPAs can offer substantial discounts, they require careful capacity planning and usage forecasting. The key is identifying which workloads are predictable enough to commit to while maintaining agility for growth and experimentation."
              , "How does " ++ context.companyName ++ " measure and optimize the ROI of your committed cloud spending? Tracking metrics like commitment utilization rates and cost per committed unit helps ensure you\x27re maximizing the value of your private pricing agreements. This becomes increasingly important as your infrastructure needs evolve and scale." ]
          else none
        genAI :=
          if context.genAI then
            some
              [ "How is " ++ context.companyName ++ " managing the unpredictable cost patterns of GPU-intensive AI workloads? GenAI applications often have highly variable compute needs, making traditional cost forecasting challenging. Understanding cost per inference, training job, or model iteration helps teams optimize both performance and spending in this rapidly evolving space."
              , "What\x27s " ++ context.companyName ++ "\x27s approach to balancing model performance with infrastructure costs for AI features? The choice between different model sizes, inference methods, and hosting strategies can dramatically impact both user experience and cloud spending. Tracking unit costs helps teams make informed trade-offs between capability and cost-effectiveness."
              , "How does " ++ context.companyName ++ " optimize costs across the AI development lifecycle from experimentation to production? GenAI projects often involve significant compute costs for data processing, model training, fine-tuning, and inference. Understanding the cost structure of each phase helps teams allocate resources efficiently and identify optimization opportunities throughout the development process." ]
          else none
        cloudCostConcerns :=
          if context.cloudCostConcerns then
            some
              [ "What early warning signals does " ++ context.companyName ++ " monitor to prevent cloud cost overruns? Implementing automated alerts for unusual spending patterns, resource utilization thresholds, and budget variance can help teams catch cost issues before they become significant problems. This proactive approach is essential for maintaining predictable unit economics."
              , "How does " ++ context.companyName ++ " ensure cost visibility and accountability across different teams and projects? Without proper cost allocation and chargeback mechanisms, it\x27s difficult to identify which initiatives are driving cloud spending and whether that spending is justified by business value. Clear cost attribution helps teams make more responsible resource decisions."
              , "What\x27s " ++ context.companyName ++ "\x27s strategy for rightsizing resources and eliminating waste in your cloud infrastructure? Regular audits of unused resources, oversized instances, and inefficient architectures often reveal 15-25% cost reduction opportunities. The key is establishing processes to continuously optimize resource allocation as your application and usage patterns evolve." ]
          else none } }

/- Part_000 lines 126-130: the interior of the `conditionalInsights` object in
the schema example embedded by `buildEnhancedPrompt`, built by string
interpolation.  Note the `ppa` and `genAI` fragments each end with a comma in
the source while the `cloudCostConcerns` fragment does not. -/
def conditionalInsightsSchemaBody (ppa genAI cloudCostConcerns : Bool) : String :=
  "\n    " ++
    (if ppa then "\"ppa\": [\"PPA question 1\", \"PPA question 2\", \"PPA question 3\"]," else "") ++
  "\n    " ++
    (if genAI then "\"genAI\": [\"GenAI question 1\", \"GenAI question 2\", \"GenAI question 3\"]," else "") ++
  "\n    " ++
    (if cloudCostConcerns then "\"cloudCostConcerns\": [\"Cost concern 1\", \"Cost concern 2\", \"Cost concern 3\"]" else "") ++
  "\n  "

/- Part_000 lines 50-136, `buildEnhancedPrompt`.  `websiteUrl || 'Not
provided'` falls back exactly when the string is empty. -/
def buildEnhancedPrompt (context : CompanyContext) (intelligence : CompanyIntelligence)
    (industryAnalysis : String) : String :=
  "You are a FinOps strategy assistant with access to current company intelligence and industry analysis.\n\n" ++
  "Company Information:\n" ++
  "- Company Name: " ++ context.companyName ++ "\n" ++
  "- Website: " ++ (if context.websiteUrl == "" then "Not provided" else context.websiteUrl) ++ "\n" ++
  "- Industry: " ++ intelligence.industry ++ "\n" ++
  "- Business Model: " ++ intelligence.businessModel ++ "\n" ++
  "- Tech Stack: " ++ String.intercalate ", " intelligence.techStack ++ "\n\n" ++
  "Recent Company Intelligence:\n" ++
  "- Recent News: " ++ String.intercalate "; " intelligence.recentNews ++ "\n" ++
  "- Cloud Usage Patterns: " ++ String.intercalate "; " intelligence.cloudUsageIndicators ++ "\n" ++
  (match intelligence.stockPerformance with
    | some summary => "- Stock Performance: " ++ summary
    | none => "") ++ "\n\n" ++
  "Industry Analysis:\n" ++ industryAnalysis ++ "\n\n" ++
  "Focus Areas Selected:\n" ++
  "- Private Pricing Agreement (PPA): " ++ (if context.ppa then "Yes" else "No") ++ "\n" ++
  "- Generative AI: " ++ (if context.genAI then "Yes" else "No") ++ "\n" ++
  "- Cloud Cost Concerns: " ++ (if context.cloudCostConcerns then "Yes" else "No") ++ "\n\n" ++
  "Please provide a structured response with the following sections:\n\n" ++
  "1. **Unit Cost Metrics (4-5 recommendations)**\n" ++
  "   - Suggest 4-5 relevant unit cost metrics tailored to " ++ context.companyName ++ "\x27s business\n" ++
  "   - For each metric, provide a clear title and 2-3 sentence explanation that includes:\n" ++
  "     * Why this metric matters for their specific business model\n" ++
  "     * How it connects to business value and decision-making\n" ++
  "     * What insights it can reveal about cost efficiency\n" ++
  "   - Consider the company\x27s likely industry and business model\n" ++
  "   - Make recommendations specific and actionable\n\n" ++
  "2. **FinOps Conversation Starters (3 questions)**\n" ++
  "   - Provide 3 strategic, open-ended questions to open FinOps discussions with " ++ context.companyName ++ "\n" ++
  "   - Each question should be 2-3 sentences that include context about why this matters for their business\n" ++
  "   - Focus on usage-based cost transparency, business value alignment, and strategic decision-making\n" ++
  "   - Include specific examples or scenarios relevant to their industry and business model\n" ++
  "   - Keep tone consultative and educational, not salesy\n" ++
  "   - Make questions thought-provoking and discussion-worthy\n\n" ++
  "3. **Conditional Insights (only if applicable)**" ++
  (if context.ppa then
    "\n   - **PPA Discussion Starters**: 3 strategic questions about private pricing agreements and committed use optimization for " ++ context.companyName ++ ". Each should be 2-3 sentences explaining the context and why PPAs matter for their specific situation, including potential savings scenarios and commitment strategies."
   else "") ++
  (if context.genAI then
    "\n   - **GenAI-Specific FinOps Insights**: 3 strategic questions about GPU costs, model training, and AI infrastructure optimization for " ++ context.companyName ++ ". Each should be 2-3 sentences providing context about GenAI cost patterns, optimization opportunities, and how to align AI spending with business outcomes."
   else "") ++
  (if context.cloudCostConcerns then
    "\n   - **Cloud Cost Risk Signals**: 3 strategic questions about cost visibility, budget overruns, and cost optimization for " ++ context.companyName ++ ". Each should be 2-3 sentences explaining common cost risk patterns, warning signs to watch for, and proactive strategies for cost management."
   else "") ++
  "\n\nPlease return your response as a valid JSON object with this exact structure:\n" ++
  "\x7b\n" ++
  "  \"unitMetrics\": [\n" ++
  "    \x7b\n" ++
  "      \"title\": \"Cost per [specific unit for " ++ context.companyName ++ "]\",\n" ++
  "      \"description\": \"Detailed explanation of why this metric matters for their business, how it connects to business value, and what cost efficiency insights it reveals\"\n" ++
  "    \x7d\n" ++
  "  ],\n" ++
  "  \"conversationStarters\": [\n" ++
  "    \"Strategic question 1 for " ++ context.companyName ++ "\",\n" ++
  "    \"Strategic question 2 for " ++ context.companyName ++ "\",\n" ++
  "    \"Strategic question 3 for " ++ context.companyName ++ "\"\n" ++
  "  ],\n" ++
  "  \"conditionalInsights\": \x7b" ++
  conditionalInsightsSchemaBody context.ppa context.genAI context.cloudCostConcerns ++
  "\x7d\n" ++
  "\x7d\n\n" ++
  "Make all recommendations highly specific to " ++ context.companyName ++ " and their likely business model. Avoid generic advice."

/- The last non-whitespace character of a string, used to detect a dangling
separator before the closing brace of the schema object. -/
def lastNonWs (s : String) : Option Char :=
  (s.data.reverse.dropWhile isJsWs).head?

/- Part_000 lines 32-34, `isValidApiKey`:
`key && key.trim() !== '' && !key.includes('your_') && key.length > 20`.
An undefined key and an empty key are both falsy at the first conjunct. -/
def isValidApiKey (key : Option String) : Bool :=
  match key with
  | none => false
  | some k =>
    !(k == "") && !(jsTrim k == "") && !(strIncludes k "your_") && decide (20 < k.length)

/- The provider credentials read from the process environment
(VITE_OPENAI_API_KEY, VITE_AWS_ACCESS_KEY_ID, VITE_AWS_SECRET_ACCESS_KEY);
`none` models an unset variable. -/
structure Env where
  openaiKey : Option String
  awsKeyId : Option String
  awsSecret : Option String
deriving DecidableEq

/- The external collaborators, each an opaque request/response exchange:
the web-intelligence gatherer, the secondary provider (Bedrock), the primary
provider (the chat completion, returning its optional message content), and
the host structured-data parser `JSON.parse` (a platform primitive, not
repository code), whose failure value is the parse-error description. -/
structure ExternalWorld where
  gatherIntel : String → String → Except String CompanyIntelligence
  invokeClaude : String → Except String String
  chatCompletion : String → Except String (Option String)
  jsonParse : String → Except String ParsedRecommendation

/- The JavaScript source throws untyped `Error` values; these constructors
tag the distinct throw sites of `generateRecommendations`, following the
taxonomy of the specification, and carry the thrown message where it varies. -/
inductive GenError where
  | credential (message : String)
  | intelligence (message : String)
  | provider (message : String)
  | noResponse
  | parseFailure (message : String)
  | invalidStructure
deriving DecidableEq

/- One awaited external-service invocation. -/
inductive ExtCall where
  | intelligenceGathering
  | bedrockAnalysis
  | openaiCompletion
deriving DecidableEq

/- Outcome of one orchestrator run: the returned value or thrown error, the
external calls awaited in order, and the console output. -/
structure RunResult where
  result : Except GenError ParsedRecommendation
  calls : List ExtCall
  logs : List (List String)

/- Part_000 lines 290-300: the fixed prompt of the industry analysis. -/
def industryPrompt (intelligence : CompanyIntelligence) : String :=
  "Analyze this company\x27s industry context and provide insights for FinOps strategy:\n\n" ++
  "Company: " ++ intelligence.companyName ++ "\n" ++
  "Industry: " ++ intelligence.industry ++ "\n" ++
  "Business Model: " ++ intelligence.businessModel ++ "\n" ++
  "Tech Stack: " ++ String.intercalate ", " intelligence.techStack ++ "\n" ++
  "Recent News: " ++ String.intercalate "; " intelligence.recentNews ++ "\n" ++
  "Cloud Usage Indicators: " ++ String.intercalate "; " intelligence.cloudUsageIndicators ++ "\n" ++
  (match intelligence.stockPerformance with
    | some summary => "Stock Performance: " ++ summary
    | none => "") ++ "\n\n" ++
  "Provide a 2-3 sentence analysis of their likely cloud cost patterns, infrastructure needs, and FinOps priorities based on this context."

/- Part_000 line 306: the deterministic sentence substituted on secondary
provider failure, a function of exactly companyName, industry and
businessModel. -/
def industryFallbackTemplate (companyName industry businessModel : String) : String :=
  "Based on " ++ companyName ++ "\x27s " ++ industry ++ " industry focus and " ++
    businessModel ++ " business model, they likely have significant cloud infrastructure needs with potential for cost optimization through unit economics and usage-based monitoring."

/- Part_000 lines 289-308, `getIndustryAnalysis`: the provider call is the
only fallible step and is wrapped in try/catch, so the function always
returns a string (never raises); the second component is the console output
of the catch branch. -/
def getIndustryAnalysis (w : ExternalWorld) (intelligence : CompanyIntelligence) :
    String × List (List String) :=
  match w.invokeClaude (industryPrompt intelligence) with
  | .ok analysis => (analysis, [])
  | .error e =>
    (industryFallbackTemplate intelligence.companyName intelligence.industry
        intelligence.businessModel,
      [["Bedrock analysis failed, using fallback:", e]])

/- Worker for `stripAllTag`; the fuel keeps the recursion structural and is
chosen at least the length of the list so it never runs out. -/
def stripTagGo (tag : List Char) : Nat → List Char → List Char
  | 0, l => l
  | _ + 1, [] => []
  | fuel + 1, c :: r =>
    if headMatches tag (c :: r) then
      match (c :: r).drop tag.length with
      | '\n' :: r2 => stripTagGo tag fuel r2
      | rest => stripTagGo tag fuel rest
    else c :: stripTagGo tag fuel r

/- JavaScript `s.replace(/TAG\n?/g, '')` for a literal TAG: every occurrence
of the tag together with one directly following newline is removed, scanning
left to right. -/
def stripAllTag (tag : String) (s : String) : String :=
  String.mk (stripTagGo tag.data (s.data.length + 1) s.data)

/- Part_000 line 207: strip code-fence markup, then trim. -/
def cleanResponse (response : String) : String :=
  jsTrim (stripAllTag "```" (stripAllTag "```json" response))

/- JavaScript truthiness of an optional string: false for an unset variable
and for the empty string; used by the line-153 ternary
`VITE_OPENAI_API_KEY ? 'Set but invalid' : 'Not set'`. -/
def jsTruthy (key : Option String) : Bool :=
  match key with
  | none => false
  | some k => !(k == "")

/- Part_000 lines 138-225, `generateRecommendations`.  `calls` records each
awaited external invocation in order; `logs` records the console output
(object arguments are rendered by their salient string parts, and the
`console.error` of the outer catch block, which only re-logs the error being
rethrown, is elided).  The `if (!response)` check treats the absent content
and the empty string alike, both being falsy, and so does the ternary inside
the credential-error message: a key set to the empty string renders as
'Not set'. -/
def generateRecommendations (env : Env) (w : ExternalWorld) (context : CompanyContext) :
    RunResult :=
  let hasValidOpenAI := isValidApiKey env.openaiKey
  let hasValidAWS := isValidApiKey env.awsKeyId && isValidApiKey env.awsSecret
  let statusLog : List String :=
    ["API Key Status:", if hasValidOpenAI then "Valid" else "Invalid/Missing",
      if hasValidAWS then "Valid" else "Invalid/Missing"]
  if !hasValidOpenAI then
    { result := .error (.credential
        ("OpenAI API key is invalid or missing. Please check your .env.local file. Current key: " ++
          (if jsTruthy env.openaiKey then "Set but invalid" else "Not set")))
      calls := []
      logs := [statusLog] }
  else
    let logs0 := [statusLog] ++
      (if !hasValidAWS then [["AWS credentials invalid, proceeding with OpenAI only"]] else []) ++
      [["Gathering company intelligence..."]]
    match w.gatherIntel context.companyName context.websiteUrl with
    | .error e =>
      { result := .error (.intelligence e), calls := [.intelligenceGathering], logs := logs0 }
    | .ok intelligence =>
      let bedrockStep : String × List (List String) × List ExtCall :=
        if hasValidAWS then
          let a := getIndustryAnalysis w intelligence
          (a.1, [["Analyzing with Bedrock Claude..."]] ++ a.2, [ExtCall.bedrockAnalysis])
        else ("", [], [])
      let industryAnalysis := bedrockStep.1
      let logs1 := logs0 ++ bedrockStep.2.1 ++
        [["Industry analysis:", industryAnalysis], ["Generating recommendations with OpenAI..."]]
      let calls1 := [ExtCall.intelligenceGathering] ++ bedrockStep.2.2
      -- getOpenAI() re-checks the key (part_000 lines 36-48); the branch is
      -- unreachable here because the same predicate on the same key already
      -- passed above, but it is kept for fidelity.
      if !(isValidApiKey env.openaiKey) then
        { result := .error (.credential "Please configure a valid OpenAI API key in your .env.local file. Get your API key from https://platform.openai.com/api-keys")
          calls := calls1, logs := logs1 }
      else
        match w.chatCompletion (buildEnhancedPrompt context intelligence industryAnalysis) with
        | .error e =>
          { result := .error (.provider e), calls := calls1 ++ [.openaiCompletion], logs := logs1 }
        | .ok content =>
          let logs2 := logs1 ++ [["OpenAI raw response:", content.getD "null"]]
          let calls2 := calls1 ++ [ExtCall.openaiCompletion]
          match content with
          | none => { result := .error .noResponse, calls := calls2, logs := logs2 }
          | some response =>
            if response == "" then
              { result := .error .noResponse, calls := calls2, logs := logs2 }
            else
              match w.jsonParse (cleanResponse response) with
              | .error parseErr =>
                { result := .error (.parseFailure ("Failed to parse AI response as JSON: " ++ parseErr))
                  calls := calls2
                  logs := logs2 ++ [["JSON parse error:", parseErr, "Raw response:", response]] }
              | .ok recommendations =>
                if !(hasRequiredStructure recommendations) then
                  { result := .error .invalidStructure, calls := calls2, logs := logs2 }
                else
                  { result := .ok recommendations, calls := calls2, logs := logs2 }

/- The industry-analysis text the orchestrator feeds into the prompt: the
analyzer result when the secondary credential pair is plausible, empty text
otherwise. -/
def industryAnalysisOf (env : Env) (w : ExternalWorld)
    (intelligence : CompanyIntelligence) : String :=
  if isValidApiKey env.awsKeyId && isValidApiKey env.awsSecret then
    (getIndustryAnalysis w intelligence).1
  else ""

/- The prompt the orchestrator sends to the primary provider. -/
def promptOf (env : Env) (w : ExternalWorld) (context : CompanyContext)
    (intelligence : CompanyIntelligence) : String :=
  buildEnhancedPrompt context intelligence (industryAnalysisOf env w intelligence)

/- Concrete sample values for the closed witness statements. -/

def sampleIntel : CompanyIntelligence :=
  { companyName := "Acme", industry := "Retail", businessModel := "B2C"
    techStack := ["AWS"], recentNews := [], cloudUsageIndicators := []
    stockPerformance := none }

def sampleCtx : CompanyContext :=
  { companyName := "Acme", websiteUrl := "https://acme.com", email := ""
    ppa := false, genAI := false, cloudCostConcerns := false }

def sampleCtxAllFlags : CompanyContext :=
  { companyName := "Acme", websiteUrl := "https://acme.com", email := ""
    ppa := true, genAI := true, cloudCostConcerns := true }

/- A world whose primary provider answers with text that is not parseable as
structured data. -/
def sampleWorldParseFail : ExternalWorld :=
  { gatherIntel := fun _ _ => .ok sampleIntel
    invokeClaude := fun _ => .error "Bedrock unavailable"
    chatCompletion := fun _ => .ok (some "not json")
    jsonParse := fun _ => .error "SyntaxError: Unexpected token o in JSON at position 1" }

def sampleEnvValid : Env :=
  { openaiKey := some "sk-abcdefghijklmnopqrstuv", awsKeyId := none, awsSecret := none }

def sampleEnvUnset : Env :=
  { openaiKey := none, awsKeyId := none, awsSecret := none }

/-- C7: whenever companyName or websiteUrl is empty or whitespace-only, the
identity validator returns true: validation is skipped, not failed. -/
theorem C7_blank_input_skips_validation (companyName websiteUrl : String)
    (h : isBlank companyName = true ∨ isBlank websiteUrl = true) :
    validateCompanyUrlMatch companyName websiteUrl = true := by
  unfold validateCompanyUrlMatch
  rcases h with h | h <;> simp [h]

/-- C7 witness: the skipped-validation example of the specification, an empty
websiteUrl. -/
theorem C7_blank_input_skips_validation_witness :
    validateCompanyUrlMatch "Anything" "" = true :=
  C7_blank_input_skips_validation "Anything" "" (Or.inr (by decide))

/-- C2: for every CompanyContext the fallback recommendation has exactly 5
unit metrics and exactly 3 conversation starters; each conditional-insight
key is present exactly when the corresponding flag is true, an absent flag
leaving the key absent rather than present-with-empty-list; and every
present insight list has length exactly 3.  The generator is a total pure
Lean function, so it never fails. -/
theorem C2_fallback_shape (context : CompanyContext) :
    (getFallbackRecommendations context).unitMetrics.length = 5 ∧
    (getFallbackRecommendations context).conversationStarters.length = 3 ∧
    (getFallbackRecommendations context).conditionalInsights.ppa.isSome = context.ppa ∧
    (getFallbackRecommendations context).conditionalInsights.genAI.isSome = context.genAI ∧
    (getFallbackRecommendations context).conditionalInsights.cloudCostConcerns.isSome
      = context.cloudCostConcerns ∧
    ((getFallbackRecommendations context).conditionalInsights.ppa.getD []).length
      = (if context.ppa then 3 else 0) ∧
    ((getFallbackRecommendations context).conditionalInsights.genAI.getD []).length
      = (if context.genAI then 3 else 0) ∧
    ((getFallbackRecommendations context).conditionalInsights.cloudCostConcerns.getD []).length
      = (if context.cloudCostConcerns then 3 else 0) := by
  obtain ⟨n, u, em, p, g, c⟩ := context
  cases p <;> cases g <;> cases c <;> simp [getFallbackRecommendations]

/-- C6: every value the fallback generator produces passes the step-9
structural validation (both unitMetrics and conversationStarters present),
so validating a fallback-produced value never raises the schema-validation
error. -/
theorem C6_fallback_passes_validation (context : CompanyContext) :
    hasRequiredStructure (toParsed (getFallbackRecommendations context)) = true := rfl

/-- C1: evaluation of the schema fragment the prompt builder emits: with
exactly one flag true (ppa alone, resp. genAI alone) the conditionalInsights
mapping ends in a dangling comma, contrary to the claim that exactly one
enabled key leaves no trailing separator; the zero-flag, all-flag and
cloudCostConcerns-only combinations are well formed.  The source always
appends a comma to the ppa and genAI fragments, so every combination with
cloudCostConcerns false and some earlier flag true is malformed. -/
theorem C1_schema_trailing_separator :
    lastNonWs (conditionalInsightsSchemaBody true false false) = some ',' ∧
    lastNonWs (conditionalInsightsSchemaBody false true false) = some ',' ∧
    lastNonWs (conditionalInsightsSchemaBody true true false) = some ',' ∧
    lastNonWs (conditionalInsightsSchemaBody false false false) = none ∧
    lastNonWs (conditionalInsightsSchemaBody false false true) = some ']' ∧
    lastNonWs (conditionalInsightsSchemaBody true true true) = some ']' := by
  refine ⟨?_, ?_, ?_, ?_, ?_, ?_⟩ <;> decide

/-- C10: the credential plausibility predicate holds exactly when the
credential is defined, non-blank after trimming, free of the substring
"your_", and strictly longer than 20 characters; in particular a credential
of length exactly 20 is rejected.  Both the fatal primary-provider check and
the non-fatal secondary-provider check of the orchestrator call this single
predicate. -/
theorem C10_credential_predicate :
    (∀ key : Option String, isValidApiKey key = true ↔
      ∃ k, key = some k ∧ jsTrim k ≠ "" ∧ strIncludes k "your_" = false ∧ 20 < k.length) ∧
    (∀ k : String, k.length = 20 → isValidApiKey (some k) = false) := by
  constructor
  · intro key
    cases key with
    | none => simp [isValidApiKey]
    | some k =>
      simp only [isValidApiKey, Bool.and_eq_true, Bool.not_eq_true', beq_eq_false_iff_ne,
        ne_eq, decide_eq_true_eq, Option.some.injEq]
      constructor
      · rintro ⟨⟨⟨h1, h2⟩, h3⟩, h4⟩
        exact ⟨k, rfl, h2, h3, h4⟩
      · rintro ⟨k', hk, h2, h3, h4⟩
        subst hk
        exact ⟨⟨⟨fun hk0 => h2 (by rw [hk0]; decide), h2⟩, h3⟩, h4⟩
  · intro k hk
    simp [isValidApiKey, hk]

/-- C10 witness: a twenty-character credential is rejected by the
plausibility predicate. -/
theorem C10_credential_predicate_witness :
    isValidApiKey (some "aaaaaaaaaaaaaaaaaaaa") = false :=
  C10_credential_predicate.2 "aaaaaaaaaaaaaaaaaaaa" (by decide)

/-- C4: with an absent or implausible primary credential the orchestrator
fails fatally with the credential error regardless of every other input
field and of the behaviour of every external service, and it awaits no
external step: the call trace is empty.  The message's ternary renders by
truthiness: an unset key and a key set to the empty string both render as
'Not set'. -/
theorem C4_credential_failure_is_fatal (env : Env) (w : ExternalWorld)
    (context : CompanyContext) (h : isValidApiKey env.openaiKey = false) :
    (generateRecommendations env w context).result = .error (.credential
      ("OpenAI API key is invalid or missing. Please check your .env.local file. Current key: " ++
        (if jsTruthy env.openaiKey then "Set but invalid" else "Not set"))) ∧
    (generateRecommendations env w context).calls = [] := by
  unfold generateRecommendations
  simp [h]

/-- C4 witness: a concrete run with the key unset returns the credential
error and an empty call trace. -/
theorem C4_credential_failure_is_fatal_witness :
    (generateRecommendations sampleEnvUnset sampleWorldParseFail sampleCtx).result =
      .error (.credential "OpenAI API key is invalid or missing. Please check your .env.local file. Current key: Not set") ∧
    (generateRecommendations sampleEnvUnset sampleWorldParseFail sampleCtx).calls = [] :=
  C4_credential_failure_is_fatal sampleEnvUnset sampleWorldParseFail sampleCtx rfl

/-- C8: the industry analyzer never raises: it returns the provider's text on
success, and on any provider failure it returns the deterministic templated
sentence built from exactly the companyName, industry and businessModel
fields of the intelligence record. -/
theorem C8_industry_analyzer_absorbs_failure (w : ExternalWorld)
    (intelligence : CompanyIntelligence) :
    (∀ e, w.invokeClaude (industryPrompt intelligence) = .error e →
      (getIndustryAnalysis w intelligence).1 =
        industryFallbackTemplate intelligence.companyName intelligence.industry
          intelligence.businessModel) ∧
    (∀ s, w.invokeClaude (industryPrompt intelligence) = .ok s →
      (getIndustryAnalysis w intelligence).1 = s) := by
  constructor <;> intro x hx <;> simp [getIndustryAnalysis, hx]

/-- C8 witness: a concrete failing secondary provider yields the template
sentence built from the three intelligence fields. -/
theorem C8_industry_analyzer_absorbs_failure_witness :
    (getIndustryAnalysis sampleWorldParseFail sampleIntel).1 =
      industryFallbackTemplate "Acme" "Retail" "B2C" :=
  (C8_industry_analyzer_absorbs_failure sampleWorldParseFail sampleIntel).1
    "Bedrock unavailable" rfl

/-- C5 counterexample: a concrete run whose primary response fails to parse:
the orchestrator throws the parse error whose message embeds the
parse-failure description, and that message does not contain the original
raw response text, refuting the claim that the thrown error carries the raw
text. -/
theorem C5_parse_error_counterexample :
    (generateRecommendations sampleEnvValid sampleWorldParseFail sampleCtx).result =
      .error (.parseFailure "Failed to parse AI response as JSON: SyntaxError: Unexpected token o in JSON at position 1") ∧
    strIncludes "Failed to parse AI response as JSON: SyntaxError: Unexpected token o in JSON at position 1" "not json" = false :=
  ⟨rfl, by decide⟩

/-- C5 (amended): when the primary provider's text, after code-fence
stripping, fails to parse, the orchestrator fails with the parse error whose
message embeds the parse-failure description, and the original raw response
text is recorded in the diagnostic log entry rather than carried inside the
error value. -/
theorem C5_parse_error_amended (env : Env) (w : ExternalWorld) (context : CompanyContext)
    (intelligence : CompanyIntelligence) (response parseErr : String)
    (hkey : isValidApiKey env.openaiKey = true)
    (hintel : w.gatherIntel context.companyName context.websiteUrl = .ok intelligence)
    (hresp : w.chatCompletion (promptOf env w context intelligence) = .ok (some response))
    (hne : response ≠ "")
    (hparse : w.jsonParse (cleanResponse response) = .error parseErr) :
    (generateRecommendations env w context).result =
      .error (.parseFailure ("Failed to parse AI response as JSON: " ++ parseErr)) ∧
    ["JSON parse error:", parseErr, "Raw response:", response] ∈
      (generateRecommendations env w context).logs := by
  unfold generateRecommendations
  unfold promptOf industryAnalysisOf at hresp
  cases haws : (isValidApiKey env.awsKeyId && isValidApiKey env.awsSecret) <;>
    rw [haws] at hresp <;>
    simp at hresp <;>
    simp [hkey, hintel, hresp, hne, hparse, haws]

/-- C5 witness: the amended statement instantiated at the concrete failing
run. -/
theorem C5_parse_error_amended_witness :
    (generateRecommendations sampleEnvValid sampleWorldParseFail sampleCtx).result =
      .error (.parseFailure ("Failed to parse AI response as JSON: " ++ "SyntaxError: Unexpected token o in JSON at position 1")) ∧
    ["JSON parse error:", "SyntaxError: Unexpected token o in JSON at position 1",
      "Raw response:", "not json"] ∈
      (generateRecommendations sampleEnvValid sampleWorldParseFail sampleCtx).logs :=
  C5_parse_error_amended sampleEnvValid sampleWorldParseFail sampleCtx sampleIntel
    "not json" "SyntaxError: Unexpected token o in JSON at position 1"
    rfl rfl rfl (by decide) rfl

/- Helper: the two company-name character filters annihilate a list with no
lower-case alphanumeric characters. -/
theorem filter_pair_nil {l : List Char} (h : ∀ c ∈ l, isLowerAlnum c = false) :
    (l.filter (fun c => isLowerAlnum c || isJsWs c)).filter (fun c => !(isJsWs c)) = [] := by
  rw [List.filter_filter, List.filter_eq_nil_iff]
  intro c hc
  cases hw : isJsWs c <;> simp [h c hc, hw]

/- Helper: the normalized company name of an input with no alphanumeric
characters is empty. -/
theorem cleanCompanyName_of_no_alnum {companyName : String}
    (h : ∀ c ∈ companyName.data, isLowerAlnum (Char.toLower c) = false) :
    cleanCompanyName companyName = "" := by
  have hmap : ∀ c ∈ companyName.data.map Char.toLower, isLowerAlnum c = false := by
    intro c hc
    obtain ⟨c0, hc0, rfl⟩ := List.mem_map.mp hc
    exact h c0 hc0
  show stripLegalSuffix
      (String.mk (((companyName.data.map Char.toLower).filter
        (fun c => isLowerAlnum c || isJsWs c)).filter (fun c => !(isJsWs c)))) = ""
  rw [filter_pair_nil hmap]
  decide

/- Helper: stripping the scheme keeps only characters of the original list. -/
theorem mem_stripUrlScheme {c : Char} {l : List Char} (h : c ∈ stripUrlScheme l) : c ∈ l := by
  unfold stripUrlScheme at h
  split at h
  · exact List.mem_of_mem_drop h
  · split at h
    · exact List.mem_of_mem_drop h
    · exact h

/- Helper: the normalized URL label of an input with no alphanumeric
characters is empty. -/
theorem cleanUrl_of_no_alnum {websiteUrl : String}
    (h : ∀ c ∈ websiteUrl.data, isLowerAlnum (Char.toLower c) = false) :
    cleanUrl websiteUrl = "" := by
  show String.mk
      (((if headMatches "www.".data (stripUrlScheme ((strToLower websiteUrl).data)) then
          (stripUrlScheme ((strToLower websiteUrl).data)).drop 4
        else stripUrlScheme ((strToLower websiteUrl).data)).takeWhile
          (fun c => !(c == '.'))).filter isLowerAlnum) = ""
  have hnil :
      ((if headMatches "www.".data (stripUrlScheme ((strToLower websiteUrl).data)) then
          (stripUrlScheme ((strToLower websiteUrl).data)).drop 4
        else stripUrlScheme ((strToLower websiteUrl).data)).takeWhile
          (fun c => !(c == '.'))).filter isLowerAlnum = [] := by
    rw [List.filter_eq_nil_iff]
    intro c hc
    have h3 := (List.takeWhile_sublist _).subset hc
    have h2 : c ∈ stripUrlScheme ((strToLower websiteUrl).data) := by
      split at h3
      · exact List.mem_of_mem_drop h3
      · exact h3
    have h1 : c ∈ (strToLower websiteUrl).data := mem_stripUrlScheme h2
    obtain ⟨c0, hc0, rfl⟩ := List.mem_map.mp (by simpa [strToLower] using h1)
    simp [h c0 hc0]
  rw [hnil]

/-- C9: inputs that are neither empty nor whitespace-only but contain no
alphanumeric characters at all normalize to the empty string on both sides,
so the validator accepts arbitrarily unrelated inputs through the
exact-equality branch. -/
theorem C9_no_alnum_inputs_accepted (companyName websiteUrl : String)
    (hcn : isBlank companyName = false) (hurl : isBlank websiteUrl = false)
    (hna : ∀ c ∈ companyName.data, isLowerAlnum (Char.toLower c) = false)
    (hnu : ∀ c ∈ websiteUrl.data, isLowerAlnum (Char.toLower c) = false) :
    cleanCompanyName companyName = "" ∧ cleanUrl websiteUrl = "" ∧
      validateCompanyUrlMatch companyName websiteUrl = true := by
  have h1 := cleanCompanyName_of_no_alnum hna
  have h2 := cleanUrl_of_no_alnum hnu
  refine ⟨h1, h2, ?_⟩
  unfold validateCompanyUrlMatch
  simp [hcn, hurl, h1, h2]

/-- C9 witness: a punctuation-only company name and a punctuation-only URL,
entirely unrelated, are accepted. -/
theorem C9_no_alnum_inputs_accepted_witness :
    cleanCompanyName "###" = "" ∧ cleanUrl "!!!" = "" ∧
      validateCompanyUrlMatch "###" "!!!" = true :=
  C9_no_alnum_inputs_accepted "###" "!!!" (by decide) (by decide) (by decide) (by decide)

/- Helper: the joined first characters of non-empty words count one character
per word. -/
theorem flatten_take_one_length (ws : List String) (h : ∀ w ∈ ws, 0 < w.length) :
    ((ws.map (fun w => w.data.take 1)).flatten).length = ws.length := by
  induction ws with
  | nil => simp
  | cons w ws ih =>
    have hw : 0 < w.length := h w (List.mem_cons_self w ws)
    have hlen : (w.data.take 1).length = 1 := by
      cases hd : w.data with
      | nil =>
        exfalso
        have : w.length = 0 := by simp [String.length, hd]
        omega
      | cons c t => simp [hd]
    simp [hlen, ih (fun x hx => h x (List.mem_cons_of_mem w hx))]
    omega

/- Helper: the acronym has one character per non-empty word. -/
theorem acronymOf_length (companyName : String) :
    (acronymOf companyName).length =
      ((jsSplitWs (strToLower companyName)).filter (fun w => 0 < w.length)).length := by
  have h : ∀ w ∈ (jsSplitWs (strToLower companyName)).filter (fun w => 0 < w.length),
      0 < w.length := by
    intro w hw
    exact of_decide_eq_true (List.mem_filter.mp hw).2
  exact flatten_take_one_length _ h

/- Helper: for non-blank inputs the validator decides exactly the disjunction
of the four spec match conditions. -/
theorem validator_iff_spec (companyName websiteUrl : String)
    (hcn : isBlank companyName = false) (hurl : isBlank websiteUrl = false) :
    (validateCompanyUrlMatch companyName websiteUrl = true ↔
      matchesSpec companyName websiteUrl) := by
  have hacr := acronymOf_length companyName
  have hfle := List.length_filter_le (fun w => decide (0 < w.length))
    (jsSplitWs (strToLower companyName))
  unfold validateCompanyUrlMatch matchesSpec
  rw [hcn, hurl]
  simp only [Bool.or_self, Bool.false_eq_true, if_false, beq_iff_eq, Bool.and_eq_true,
    Bool.or_eq_true, decide_eq_true_eq, List.any_eq_true]
  split_ifs with h1 h2 h3 h4
  · exact iff_of_true rfl (Or.inl h1)
  · exact iff_of_true rfl (Or.inr (Or.inl ⟨h2.1.1, h2.1.2, h2.2⟩))
  · exact iff_of_true rfl (Or.inr (Or.inr (Or.inl h3)))
  · constructor
    · intro hb
      rw [Bool.and_eq_true, decide_eq_true_eq] at hb
      exact Or.inr (Or.inr (Or.inr ⟨by omega, hb.1, hb.2⟩))
    · intro hs
      rcases hs with h | h | h | h
      · exact absurd h h1
      · exact absurd ⟨⟨h.1, h.2.1⟩, h.2.2⟩ h2
      · exact absurd h h3
      · rw [Bool.and_eq_true, decide_eq_true_eq]
        exact ⟨h.2.1, h.2.2⟩
  · constructor
    · intro hb
      simp at hb
    · intro hs
      rcases hs with h | h | h | h
      · exact absurd h h1
      · exact absurd ⟨⟨h.1, h.2.1⟩, h.2.2⟩ h2
      · exact absurd h h3
      · exact absurd (by omega) h4

/-- C3: for all non-blank inputs the identity validator returns true exactly
when one of the four normalized match conditions of the specification holds
(exact equality, mutual-substring with both lengths at least 3, a cleaned
word of length at least 3 contained in the URL label, or a multi-word
acronym of length at least 2 contained in the URL label), and the three
concrete examples of the specification evaluate as claimed. -/
theorem C3_validator_characterization :
    (∀ companyName websiteUrl : String,
      isBlank companyName = false → isBlank websiteUrl = false →
      (validateCompanyUrlMatch companyName websiteUrl = true ↔
        matchesSpec companyName websiteUrl)) ∧
    validateCompanyUrlMatch "CloudZero" "https://www.cloudzero.com" = true ∧
    validateCompanyUrlMatch "International Business Machines" "https://ibm.com" = true ∧
    validateCompanyUrlMatch "Acme Corp" "https://www.globex.com" = false :=
  ⟨validator_iff_spec, by decide, by decide, by decide⟩

/-- C3 witness: the characterization instantiated at a concrete non-blank
input pair. -/
theorem C3_validator_characterization_witness :
    validateCompanyUrlMatch "CloudZero" "https://www.cloudzero.com" = true ↔
      matchesSpec "CloudZero" "https://www.cloudzero.com" :=
  C3_validator_characterization.1 "CloudZero" "https://www.cloudzero.com"
    (by decide) (by decide)
